import Mathlib

/-!
# SmartCompta — shallow embedding and verification

A shallow embedding in Lean 4 of the SmartCompta invoicing core:

* `src/lib/facture-utils.ts` — `getNextFactureNumber` (the yearly invoice
  sequence) and `calculerMontants` (the monetary calculator);
* `src/lib/openrouter.ts` — `transcrireAudio` and `extraireInfosFacture`
  (the transcription/extraction adapter, including its JSON post-processing);
* `src/app/api/generate/route.ts` — the three orchestrator actions
  (transcribe / extract / create).

JavaScript numbers are modelled as exact rationals (`ℚ`) and `Math.round`
as half-up rounding (`⌊x + 1/2⌋`, which rounds halves toward `+∞` exactly
as the JS builtin does).  External calls (database rows, HTTP responses,
the Stripe adapter) are modelled as explicit state / oracle parameters, so
every handler becomes a pure function of its inputs.
-/

namespace SmartCompta

/-! ## JavaScript primitives -/

/-- Model of `Math.round`: rounds to the nearest integer, halves toward `+∞`. -/
def jsRound (x : ℚ) : ℤ := ⌊x + 1/2⌋

/-- Model of `Math.round(x * 100) / 100`: round to 2 decimal places, the idiom used
throughout `facture-utils.ts`. -/
def round2 (x : ℚ) : ℚ := (jsRound (x * 100) : ℚ) / 100

theorem jsRound_add_int (x : ℚ) (k : ℤ) : jsRound (x + k) = jsRound x + k := by
  unfold jsRound
  rw [add_right_comm, Int.floor_add_int]

theorem jsRound_intCast (k : ℤ) : jsRound (k : ℚ) = k := by
  unfold jsRound
  rw [add_comm, Int.floor_add_int]
  norm_num

/-- Rounding `round2` is the identity on amounts that are already whole cents. -/
theorem round2_eq_self_of_cents (k : ℤ) : round2 ((k : ℚ) / 100) = (k : ℚ) / 100 := by
  unfold round2
  rw [div_mul_cancel₀ _ (by norm_num : (100 : ℚ) ≠ 0), jsRound_intCast]

/-- Adding a whole-cent amount commutes with `round2`. -/
theorem round2_add_cents (x : ℚ) (k : ℤ) :
    round2 (x + (k : ℚ) / 100) = round2 x + (k : ℚ) / 100 := by
  unfold round2
  rw [add_mul, div_mul_cancel₀ _ (by norm_num : (100 : ℚ) ≠ 0), jsRound_add_int]
  push_cast
  ring

/-! ## Monetary calculator (`calculerMontants`, facture-utils.ts lines 68–83) -/

/-- Result record of `calculerMontants`. -/
structure Montants where
  montantHT : ℚ
  tauxTVA : ℚ
  montantTVA : ℚ
  montantTTC : ℚ
  deriving Repr, DecidableEq

/-- Model of `calculerMontants(montantHT, tauxTVA = 20)`:
tax is the unrounded product rounded to cents; the total is
`Math.round((montantHT + montantTVA) * 100) / 100` with the **unrounded**
input base; the returned base is the input rounded to cents. -/
def calculerMontants (montantHT : ℚ) (tauxTVA : ℚ := 20) : Montants :=
  let montantTVA := round2 (montantHT * (tauxTVA / 100))
  let montantTTC := round2 (montantHT + montantTVA)
  { montantHT := round2 montantHT
    tauxTVA := tauxTVA
    montantTVA := montantTVA
    montantTTC := montantTTC }

/-- The tax field is always a whole number of cents over 100. -/
theorem montantTVA_cents (b r : ℚ) :
    (calculerMontants b r).montantTVA = (jsRound (b * (r / 100) * 100) : ℚ) / 100 := rfl

theorem round2_idem (x : ℚ) : round2 (round2 x) = round2 x := by
  unfold round2
  rw [div_mul_cancel₀ _ (by norm_num : (100 : ℚ) ≠ 0), jsRound_intCast]

/-- Adding the (whole-cent) tax before or after rounding the base gives the
same total: the code value `round2 (b + tva)` coincides with the spec form
`round2 (round2 b + tva)`. -/
theorem montantTTC_eq_spec_form (b r : ℚ) :
    (calculerMontants b r).montantTTC
      = round2 (round2 b + (calculerMontants b r).montantTVA) := by
  show round2 (b + round2 (b * (r / 100))) = round2 (round2 b + round2 (b * (r / 100)))
  have ht : round2 (b * (r / 100)) = ((jsRound (b * (r / 100) * 100) : ℚ)) / 100 := rfl
  have hu : round2 b = ((jsRound (b * 100) : ℚ)) / 100 := rfl
  have hsum : ((jsRound (b * 100) : ℚ)) / 100 + ((jsRound (b * (r / 100) * 100) : ℚ)) / 100
      = ((jsRound (b * 100) + jsRound (b * (r / 100) * 100) : ℤ) : ℚ) / 100 := by
    push_cast
    ring
  rw [ht, round2_add_cents, hu, hsum, round2_eq_self_of_cents]

/-- The returned record satisfies `montantTTC = montantHT + montantTVA`
exactly (not merely within a cent). -/
theorem montantTTC_exact (b r : ℚ) :
    (calculerMontants b r).montantTTC
      = (calculerMontants b r).montantHT + (calculerMontants b r).montantTVA := by
  show round2 (b + round2 (b * (r / 100))) = round2 b + round2 (b * (r / 100))
  have ht : round2 (b * (r / 100)) = ((jsRound (b * (r / 100) * 100) : ℚ)) / 100 := rfl
  rw [ht, round2_add_cents]

/-! ## Invoice numbering (`getNextFactureNumber`, facture-utils.ts lines 7–63)

The Prisma `sequence` table holds at most one row with key `FACTURE_SEQ`;
we model the store as an `Option Sequence` threaded through each call, and
the transaction body as a pure state transition. -/

/-- The `Sequence` row: `{ dernierNumero, annee }` (the `id` key is fixed
to `FACTURE_SEQ` and left implicit). -/
structure Sequence where
  dernierNumero : ℕ
  annee : ℕ
  deriving Repr, DecidableEq

/-- Return value of `getNextFactureNumber`. -/
structure FactureNumber where
  numeroSequentiel : ℕ
  prefixe : String
  numeroComplet : String
  deriving Repr, DecidableEq

/-- Model of `String.prototype.padStart(n, c)`. -/
def padStart (n : ℕ) (c : Char) (s : String) : String :=
  if s.length < n then String.mk (List.replicate (n - s.length) c) ++ s else s

/-- Model of `getNextFactureNumber()`: read-or-create the counter row, reset it when
the stored year differs from the current year, increment, persist, and
format `prefixe ++ padStart(4, '0')` of the new number. -/
def getNextFactureNumber (anneeEnCours : ℕ) (st : Option Sequence) :
    FactureNumber × Option Sequence :=
  let prefixe := "FA-" ++ toString anneeEnCours ++ "-"
  let sequence :=
    match st with
    | none => { dernierNumero := 0, annee := anneeEnCours : Sequence }
    | some s => s
  let sequence :=
    if sequence.annee ≠ anneeEnCours then
      { dernierNumero := 0, annee := anneeEnCours : Sequence }
    else sequence
  let nouveauNumero := sequence.dernierNumero + 1
  ({ numeroSequentiel := nouveauNumero
     prefixe := prefixe
     numeroComplet := prefixe ++ padStart 4 '0' (toString nouveauNumero) },
   some { sequence with dernierNumero := nouveauNumero })

/-- A run of `n` sequential (non-overlapping) calls in year `anneeEnCours`,
returning the issued `numeroSequentiel`s in order and the final store. -/
def runCalls (anneeEnCours : ℕ) : ℕ → Option Sequence → List ℕ × Option Sequence
  | 0, st => ([], st)
  | n + 1, st =>
    let (r, st') := getNextFactureNumber anneeEnCours st
    let (rs, st'') := runCalls anneeEnCours n st'
    (r.numeroSequentiel :: rs, st'')

theorem getNext_same_year (d y : ℕ) :
    getNextFactureNumber y (some ⟨d, y⟩)
      = ({ numeroSequentiel := d + 1
           prefixe := "FA-" ++ toString y ++ "-"
           numeroComplet := ("FA-" ++ toString y ++ "-") ++ padStart 4 '0' (toString (d + 1)) },
         some ⟨d + 1, y⟩) := by
  simp [getNextFactureNumber]

theorem runCalls_same_year (y : ℕ) :
    ∀ n d, runCalls y n (some ⟨d, y⟩)
      = ((List.range n).map (fun i => d + 1 + i), some ⟨d + n, y⟩) := by
  intro n
  induction n with
  | zero => intro d; simp [runCalls]
  | succ n ih =>
    intro d
    rw [runCalls, getNext_same_year]
    simp only [ih (d + 1), List.range_succ_eq_map, List.map_cons, List.map_map, Prod.mk.injEq,
      List.cons.injEq, Option.some.injEq]
    refine ⟨⟨trivial, ?_⟩, ?_⟩
    · apply List.map_congr_left
      intro i _
      simp only [Function.comp_apply]
      omega
    · congr 1
      omega

/-- Starting with no counter row, the first call creates the row with
`dernierNumero = 0` for the current year and issues `1`. -/
theorem runCalls_none (y n : ℕ) :
    runCalls y n none = ((List.range n).map (fun i => 1 + i), if n = 0 then none else some ⟨n, y⟩) := by
  cases n with
  | zero => simp [runCalls]
  | succ n =>
    rw [runCalls]
    have h1 : getNextFactureNumber y none
        = ({ numeroSequentiel := 1
             prefixe := "FA-" ++ toString y ++ "-"
             numeroComplet := ("FA-" ++ toString y ++ "-") ++ padStart 4 '0' (toString 1) },
           some ⟨1, y⟩) := by
      simp [getNextFactureNumber]
    rw [h1]
    simp only [runCalls_same_year y n 1, List.range_succ_eq_map, List.map_cons, List.map_map,
      Prod.mk.injEq, List.cons.injEq, Option.some.injEq]
    refine ⟨⟨trivial, ?_⟩, ?_⟩
    · apply List.map_congr_left
      intro i _
      simp only [Function.comp_apply]
      omega
    · rw [if_neg (Nat.succ_ne_zero n)]
      congr 2
      omega

/-- Behaviour of `getNextFactureNumber` when the stored year differs from the current
year: the counter is reset and `1` is issued under the new prefix. -/
theorem getNext_reset (y : ℕ) (s : Sequence) (h : s.annee ≠ y) :
    getNextFactureNumber y (some s)
      = ({ numeroSequentiel := 1
           prefixe := "FA-" ++ toString y ++ "-"
           numeroComplet := ("FA-" ++ toString y ++ "-") ++ padStart 4 '0' (toString 1) },
         some ⟨1, y⟩) := by
  simp [getNextFactureNumber, h]

theorem getNext_none (y : ℕ) :
    getNextFactureNumber y none
      = ({ numeroSequentiel := 1
           prefixe := "FA-" ++ toString y ++ "-"
           numeroComplet := ("FA-" ++ toString y ++ "-") ++ padStart 4 '0' (toString 1) },
         some ⟨1, y⟩) := by
  simp [getNextFactureNumber]

/-- The first number issued from an arbitrary store state. -/
def firstNum (y : ℕ) : Option Sequence → ℕ
  | none => 1
  | some s => if s.annee = y then s.dernierNumero + 1 else 1

theorem runCalls_fst_succ (y n : ℕ) (st : Option Sequence) :
    (runCalls y (n + 1) st).1
      = firstNum y st :: (List.range n).map (fun i => firstNum y st + 1 + i) := by
  match st with
  | none =>
    rw [runCalls, getNext_none]
    simp [runCalls_same_year, firstNum]
  | some s =>
    by_cases hy : s.annee = y
    · obtain ⟨d, _⟩ := s
      subst hy
      rw [runCalls, getNext_same_year]
      simp [runCalls_same_year, firstNum]
    · rw [runCalls, getNext_reset y s hy]
      simp [runCalls_same_year, firstNum, hy]

theorem pairwise_lt_map_add (c m : ℕ) :
    ((List.range m).map (fun i => c + i)).Pairwise (· < ·) := by
  refine List.Pairwise.map _ (fun a b h => ?_) (List.pairwise_lt_range m)
  omega

/-- Any run of sequential calls yields strictly increasing numbers. -/
theorem runCalls_pairwise (y n : ℕ) (st : Option Sequence) :
    ((runCalls y n st).1).Pairwise (· < ·) := by
  cases n with
  | zero => simp [runCalls]
  | succ n =>
    rw [runCalls_fst_succ]
    refine List.pairwise_cons.mpr ⟨?_, ?_⟩
    · intro a ha
      simp only [List.mem_map, List.mem_range] at ha
      obtain ⟨i, _, rfl⟩ := ha
      omega
    · exact pairwise_lt_map_add _ n

/-- C1 — For every run of sequential (non-overlapping) calls to
`getNextFactureNumber` within the same calendar year, the returned
`numeroSequentiel` values are strictly increasing with no repeats; starting
with no counter row, the `n` calls return exactly `1, 2, …, n`; and when
the stored year of the counter row differs from the current year, the
counter is reset so that the call issues `1` under the prefix of the new year. -/
theorem getNextFactureNumber_sequence_spec :
    (∀ y n, (runCalls y n none).1 = (List.range n).map (fun i => 1 + i))
    ∧ (∀ y n st, ((runCalls y n st).1).Pairwise (· < ·))
    ∧ (∀ y (s : Sequence), s.annee ≠ y →
        getNextFactureNumber y (some s)
          = ({ numeroSequentiel := 1
               prefixe := "FA-" ++ toString y ++ "-"
               numeroComplet := ("FA-" ++ toString y ++ "-") ++ padStart 4 '0' (toString 1) },
             some ⟨1, y⟩)) :=
  ⟨fun y n => by rw [runCalls_none], runCalls_pairwise, getNext_reset⟩

/-- Witness for C1: three calls of 2026 issue `1, 2, 3`; a row stored for
2025 is reset by a 2026 call, which issues `1` under prefix `FA-2026-`. -/
theorem getNextFactureNumber_sequence_spec_witness :
    (runCalls 2026 3 none).1 = (List.range 3).map (fun i => 1 + i)
    ∧ getNextFactureNumber 2026 (some ⟨37, 2025⟩)
        = ({ numeroSequentiel := 1
             prefixe := "FA-" ++ toString 2026 ++ "-"
             numeroComplet := ("FA-" ++ toString 2026 ++ "-") ++ padStart 4 '0' (toString 1) },
           some ⟨1, 2026⟩) :=
  ⟨getNextFactureNumber_sequence_spec.1 2026 3,
   getNextFactureNumber_sequence_spec.2.2 2026 ⟨37, 2025⟩ (by decide)⟩

/-- C3 — `calculerMontants` rounds all three money fields to 2 decimal
places with half-up rounding: tax is the unrounded product `b * (r/100)`
then rounded; the total equals the rounded base plus the rounded tax
rounded again; and `montantTTC = montantHT + montantTVA` holds exactly on
the returned record, hence within one cent. -/
theorem calculerMontants_rounding_spec (b r : ℚ) :
    (calculerMontants b r).montantHT = round2 b
    ∧ (calculerMontants b r).montantTVA = round2 (b * (r / 100))
    ∧ (calculerMontants b r).montantTTC = round2 (round2 b + round2 (b * (r / 100)))
    ∧ (calculerMontants b r).montantTTC
        = (calculerMontants b r).montantHT + (calculerMontants b r).montantTVA
    ∧ |(calculerMontants b r).montantTTC
        - ((calculerMontants b r).montantHT + (calculerMontants b r).montantTVA)| ≤ 1 / 100 := by
  refine ⟨rfl, rfl, montantTTC_eq_spec_form b r, montantTTC_exact b r, ?_⟩
  rw [montantTTC_exact b r]
  simp

/-- C4 — `calculerMontants(100, 20)` returns
`{ montantHT := 100, tauxTVA := 20, montantTVA := 20, montantTTC := 120 }`,
and `calculerMontants(33.33, 20)` returns `montantTVA = 6.67` and
`montantTTC = 40.00`. -/
theorem calculerMontants_examples_spec :
    calculerMontants 100 20 = ⟨100, 20, 20, 120⟩
    ∧ (calculerMontants (3333 / 100) 20).montantTVA = 667 / 100
    ∧ (calculerMontants (3333 / 100) 20).montantTTC = 40 := by
  refine ⟨?_, ?_, ?_⟩ <;>
    norm_num [calculerMontants, round2, jsRound, Int.floor_eq_iff, Montants.mk.injEq]

/-! ## JavaScript string and JSON builtins

`extraireInfosFacture` post-processes the model reply with `String.match`,
`JSON.parse`, `String()`, `Number()`, `toUpperCase()` and `trim()`.  These
builtins are modelled below: JSON values as an inductive type, `JSON.parse`
as a fuel-based recursive-descent parser of the JSON grammar, and the
coercions case by case on parsed values. -/

/-- A parsed JSON value. -/
inductive JVal where
  | jnull : JVal
  | jbool : Bool → JVal
  | jnum : ℚ → JVal
  | jstr : String → JVal
  | jarr : List JVal → JVal
  | jobj : List (String × JVal) → JVal
  deriving Repr

/-- JSON insignificant whitespace. -/
def jsonWs (c : Char) : Bool := c == ' ' || c == '\t' || c == '\n' || c == '\r'

def skipWs (cs : List Char) : List Char := cs.dropWhile jsonWs

/-- Whitespace removed by `String.prototype.trim` (ASCII subset; the JS
builtin also strips rarer Unicode space characters, which never occur in
the inputs considered here). -/
def jsWhitespace (c : Char) : Bool :=
  c == ' ' || c == '\t' || c == '\n' || c == '\r' || c == Char.ofNat 11 || c == Char.ofNat 12

def trimList (cs : List Char) : List Char :=
  ((cs.dropWhile jsWhitespace).reverse.dropWhile jsWhitespace).reverse

/-- Model of `String.prototype.trim()`. -/
def jsTrim (s : String) : String := String.mk (trimList s.toList)

/-- Model of `String.prototype.toUpperCase()` (ASCII mapping). -/
def jsToUpper (s : String) : String := String.mk (s.toList.map Char.toUpper)

def hexVal? (c : Char) : Option ℕ :=
  if '0' ≤ c ∧ c ≤ '9' then some (c.toNat - 48)
  else if 'a' ≤ c ∧ c ≤ 'f' then some (c.toNat - 87)
  else if 'A' ≤ c ∧ c ≤ 'F' then some (c.toNat - 55)
  else none

def escChar? (e : Char) : Option Char :=
  if e = '"' then some '"'
  else if e = '\\' then some '\\'
  else if e = '/' then some '/'
  else if e = 'b' then some (Char.ofNat 8)
  else if e = 'f' then some (Char.ofNat 12)
  else if e = 'n' then some '\n'
  else if e = 'r' then some '\r'
  else if e = 't' then some '\t'
  else none

/-- JSON string body parser (after the opening quote), fuelled. -/
def parseJStr : ℕ → List Char → List Char → Option (String × List Char)
  | 0, _, _ => none
  | fuel + 1, acc, cs =>
    match cs with
    | [] => none
    | '"' :: rest => some (String.mk acc.reverse, rest)
    | '\\' :: 'u' :: h1 :: h2 :: h3 :: h4 :: rest =>
      match hexVal? h1, hexVal? h2, hexVal? h3, hexVal? h4 with
      | some a, some b, some c, some d =>
        parseJStr fuel (Char.ofNat (((a * 16 + b) * 16 + c) * 16 + d) :: acc) rest
      | _, _, _, _ => none
    | '\\' :: e :: rest =>
      match escChar? e with
      | some ch => parseJStr fuel (ch :: acc) rest
      | none => none
    | c :: rest => parseJStr fuel (c :: acc) rest

def natOfDigits (ds : List Char) : ℕ := ds.foldl (fun a c => a * 10 + (c.toNat - 48)) 0

/-- JSON number literal: `-?(0|[1-9][0-9]*)(\.[0-9]+)?([eE][+-]?[0-9]+)?`. -/
def parseJsonNum (cs : List Char) : Option (ℚ × List Char) :=
  let (neg, cs1) := match cs with | '-' :: t => (true, t) | _ => (false, cs)
  let (ds, cs2) := cs1.span (fun c => c.isDigit)
  if ds = [] then none
  else if 1 < ds.length ∧ ds.head? = some '0' then none
  else
    let base : ℚ := (natOfDigits ds : ℚ)
    let fracStep : Option (ℚ × List Char) :=
      match cs2 with
      | '.' :: t =>
        let (fs, t2) := t.span (fun c => c.isDigit)
        if fs = [] then none
        else some (base + (natOfDigits fs : ℚ) / (10 : ℚ) ^ fs.length, t2)
      | _ => some (base, cs2)
    match fracStep with
    | none => none
    | some (v, cs3) =>
      let expStep : Option (ℚ × List Char) :=
        match cs3 with
        | e :: t =>
          if e = 'e' ∨ e = 'E' then
            let (esign, t1) :=
              match t with
              | '+' :: t2 => ((1 : ℤ), t2)
              | '-' :: t2 => ((-1 : ℤ), t2)
              | _ => ((1 : ℤ), t)
            let (es, t3) := t1.span (fun c => c.isDigit)
            if es = [] then none
            else some (v * (10 : ℚ) ^ (esign * (natOfDigits es : ℤ)), t3)
          else some (v, cs3)
        | [] => some (v, cs3)
      match expStep with
      | none => none
      | some (v2, cs4) => some ((if neg then -v2 else v2), cs4)

mutual

/-- JSON value parser, fuelled by an upper bound on recursion depth. -/
def parseJVal : ℕ → List Char → Option (JVal × List Char)
  | 0, _ => none
  | fuel + 1, cs =>
    match skipWs cs with
    | [] => none
    | '"' :: rest => (parseJStr (rest.length + 1) [] rest).map (fun p => (JVal.jstr p.1, p.2))
    | '{' :: rest =>
      match skipWs rest with
      | '}' :: rest2 => some (JVal.jobj [], rest2)
      | rest2 => (parseJMembers fuel rest2).map (fun p => (JVal.jobj p.1, p.2))
    | '[' :: rest =>
      match skipWs rest with
      | ']' :: rest2 => some (JVal.jarr [], rest2)
      | rest2 => (parseJElems fuel rest2).map (fun p => (JVal.jarr p.1, p.2))
    | 't' :: 'r' :: 'u' :: 'e' :: rest => some (JVal.jbool true, rest)
    | 'f' :: 'a' :: 'l' :: 's' :: 'e' :: rest => some (JVal.jbool false, rest)
    | 'n' :: 'u' :: 'l' :: 'l' :: rest => some (JVal.jnull, rest)
    | cs2 => (parseJsonNum cs2).map (fun p => (JVal.jnum p.1, p.2))

/-- Members of a JSON object after `{` (at least one member). -/
def parseJMembers : ℕ → List Char → Option (List (String × JVal) × List Char)
  | 0, _ => none
  | fuel + 1, cs =>
    match skipWs cs with
    | '"' :: rest =>
      match parseJStr (rest.length + 1) [] rest with
      | none => none
      | some (k, r1) =>
        match skipWs r1 with
        | ':' :: r2 =>
          match parseJVal fuel r2 with
          | none => none
          | some (v, r3) =>
            match skipWs r3 with
            | ',' :: r4 => (parseJMembers fuel r4).map (fun p => ((k, v) :: p.1, p.2))
            | '}' :: r4 => some ([(k, v)], r4)
            | _ => none
        | _ => none
    | _ => none

/-- Elements of a JSON array after `[` (at least one element). -/
def parseJElems : ℕ → List Char → Option (List JVal × List Char)
  | 0, _ => none
  | fuel + 1, cs =>
    match parseJVal fuel cs with
    | none => none
    | some (v, r1) =>
      match skipWs r1 with
      | ',' :: r2 => (parseJElems fuel r2).map (fun p => (v :: p.1, p.2))
      | ']' :: r2 => some ([v], r2)
      | _ => none

end

/-- Model of `JSON.parse`: parse one value and require only whitespace after it. -/
def jsonParse (s : String) : Option JVal :=
  match parseJVal (s.length + 1) s.toList with
  | none => none
  | some (v, rest) => if skipWs rest = [] then some v else none

/-- Property read on a JSON object; for duplicate keys the last assignment
wins, as when `JSON.parse` builds the object. -/
def jGet (o : List (String × JVal)) (k : String) : Option JVal :=
  (o.reverse.find? (fun p => p.1 == k)).map (fun p => p.2)

/-- Model of `parsed.k`: property read on an arbitrary value (`none` = `undefined`). -/
def jfield : JVal → String → Option JVal
  | JVal.jobj o, k => jGet o k
  | _, _ => none

/-- JS truthiness of a possibly-`undefined` value. -/
def jsTruthy : Option JVal → Bool
  | none => false
  | some JVal.jnull => false
  | some (JVal.jbool b) => b
  | some (JVal.jnum q) => !(q == 0)
  | some (JVal.jstr s) => !(s == "")
  | some (JVal.jarr _) => true
  | some (JVal.jobj _) => true

/-- Model of `x || d` on a possibly-`undefined` value. -/
def jsOrElse (x : Option JVal) (d : JVal) : JVal :=
  if jsTruthy x then x.getD d else d

/-- Decimal digits of a fraction in `[0, 1)`, up to `fuel` digits. -/
def fracDigits : ℕ → ℚ → String
  | 0, _ => ""
  | n + 1, q =>
    if q = 0 then ""
    else
      let d := ⌊q * 10⌋
      toString d ++ fracDigits n (q * 10 - (d : ℚ))

/-- JS number formatting, exact for integers and for terminating decimals
of at most 25 digits (the only numbers reaching `String()` here). -/
def jsNumToString (q : ℚ) : String :=
  if q.den = 1 then toString q.num
  else
    (if q < 0 then "-" else "") ++ toString ⌊|q|⌋ ++ "." ++ fracDigits 25 (|q| - (⌊|q|⌋ : ℚ))

def joinComma : List String → String
  | [] => ""
  | [s] => s
  | s :: ss => s ++ "," ++ joinComma ss

/-- Fuelled worker for `jsString` (fuel bounds the array nesting depth). -/
def jsStringF : ℕ → JVal → String
  | 0, _ => ""
  | fuel + 1, v =>
    match v with
    | JVal.jnull => "null"
    | JVal.jbool true => "true"
    | JVal.jbool false => "false"
    | JVal.jnum q => jsNumToString q
    | JVal.jstr s => s
    | JVal.jarr xs => joinComma (xs.map (jsStringF fuel))
    | JVal.jobj _ => "[object Object]"

/-- Model of `String(v)` on a parsed JSON value: arrays print their comma-joined
elements, objects print `[object Object]`.  Any fuel at least the array
nesting depth of `v` is exact; callers pass the length of the source text
the value was parsed from, which always suffices.  (`String(undefined)`
never occurs in the source: the argument is always `x || ''` first.) -/
def jsStringWith (fuel : ℕ) (v : JVal) : String := jsStringF (fuel + 1) v

/-- Model of `Number(s)` on a string: trimmed empty string is `0`; otherwise a
decimal literal with optional sign, fraction and exponent; anything else is
`NaN` (`none`).  (Hex/binary/`Infinity` literals never occur here.) -/
def jsParseNumberString (s : String) : Option ℚ :=
  let cs := trimList s.toList
  if cs = [] then some 0
  else
    let (neg, cs1) :=
      match cs with
      | '-' :: t => (true, t)
      | '+' :: t => (false, t)
      | _ => (false, cs)
    let (ds, cs2) := cs1.span (fun c => c.isDigit)
    let hasDot := cs2.head? = some '.'
    let (fs, cs3) := (if hasDot then cs2.tail else cs2).span (fun c => c.isDigit)
    if ds = [] ∧ fs = [] then none
    else
      let v : ℚ := (natOfDigits ds : ℚ) + (natOfDigits fs : ℚ) / (10 : ℚ) ^ fs.length
      match cs3 with
      | [] => some (if neg then -v else v)
      | e :: t =>
        if e = 'e' ∨ e = 'E' then
          let (esign, t1) :=
            match t with
            | '+' :: t2 => ((1 : ℤ), t2)
            | '-' :: t2 => ((-1 : ℤ), t2)
            | _ => ((1 : ℤ), t)
          let (es, t3) := t1.span (fun c => c.isDigit)
          if es = [] ∨ t3 ≠ [] then none
          else some ((if neg then -v else v) * (10 : ℚ) ^ (esign * (natOfDigits es : ℤ)))
        else none

/-- Model of `Number(v)` on a possibly-`undefined` parsed value; `none` is `NaN`.
(`Number` of an array goes through its string form in JS; that corner is
modelled as `NaN` and is unreachable from the claims considered.) -/
def jsNumber : Option JVal → Option ℚ
  | none => none
  | some JVal.jnull => some 0
  | some (JVal.jbool b) => some (if b then 1 else 0)
  | some (JVal.jnum q) => some q
  | some (JVal.jstr s) => jsParseNumberString s
  | some (JVal.jarr _) => none
  | some (JVal.jobj _) => none

/-- Model of `x || 0` on a possibly-`NaN` number. -/
def jsOrZero : Option ℚ → ℚ
  | none => 0
  | some q => if q == 0 then 0 else q

/-! ## Extraction adapter (`extraireInfosFacture`, openrouter.ts lines 72–166) -/

/-- Model of `content.match(/\{[\s\S]*\}/)`: the regex is anchored at the first `{`
and greedy to the last `}`, so the match, when it exists, is the substring
from the first `{` through the last `}` (which must lie after it). -/
def jsonMatchStr (content : String) : Option String :=
  let cs := content.toList
  match cs.findIdx? (fun c => c == '{') with
  | none => none
  | some i =>
    match cs.reverse.findIdx? (fun c => c == '}') with
    | none => none
    | some jr =>
      let j := cs.length - 1 - jr
      if i < j then some (String.mk ((cs.drop i).take (j - i + 1))) else none

/-- Result record of `extraireInfosFacture` (`ExtractionResult` in
openrouter.ts); `error`/`rawResponse` are optional fields. -/
structure ExtractionResult where
  numDossier : String
  montantHT : ℚ
  prestation : String
  success : Bool
  error : Option String
  rawResponse : Option String
  deriving Repr, DecidableEq

/-- The pure tail of `extraireInfosFacture` (openrouter.ts lines 133–165):
locate a JSON object substring in the model reply, parse it, and normalize
the three fields; a parse throw lands in the surrounding `catch`, whose
result carries `Erreur: ${error.message}` (the runtime-specific exception
text is modelled by a fixed placeholder) and — unlike the no-match branch —
no `rawResponse` field. -/
def processExtraction (content : String) : ExtractionResult :=
  match jsonMatchStr content with
  | none =>
    { numDossier := "", montantHT := 0, prestation := "", success := false
      error := some "Format de réponse invalide", rawResponse := some content }
  | some js =>
    match jsonParse js with
    | none =>
      { numDossier := "", montantHT := 0, prestation := "", success := false
        error := some "Erreur: SyntaxError", rawResponse := none }
    | some parsed =>
      { numDossier := jsTrim (jsToUpper (jsStringWith js.length (jsOrElse (jfield parsed "numDossier") (JVal.jstr ""))))
        montantHT := jsOrZero (jsNumber (jfield parsed "montantHT"))
        prestation := jsTrim (jsStringWith js.length (jsOrElse (jfield parsed "prestation") (JVal.jstr "")))
        success := true, error := none, rawResponse := some content }

/-- An HTTP response from the chat-completions endpoint: `ok`, the error
body text, and `data.choices?.[0]?.message?.content` (`none` = absent). -/
structure ChatResp where
  ok : Bool
  text : String
  content : Option String
  deriving Repr, DecidableEq

/-- Model of `extraireInfosFacture`: full adapter given the configured key and the
(single) provider response; the second component counts provider calls. -/
def extraireInfosFacture (apiKey : Option String) (resp : ChatResp) : ExtractionResult × ℕ :=
  match apiKey with
  | none =>
    ({ numDossier := "", montantHT := 0, prestation := "", success := false
       error := some "Clé API OpenRouter non configurée", rawResponse := none }, 0)
  | some _ =>
    if resp.ok then
      (processExtraction (resp.content.getD ""), 1)
    else
      ({ numDossier := "", montantHT := 0, prestation := "", success := false
         error := some ("Erreur extraction: " ++ resp.text), rawResponse := none }, 1)

/-! ## Transcription (`transcrireAudio`, openrouter.ts lines 26–67, and the
orchestrator transcription branch, route.ts lines 41–89) -/

/-- An HTTP response from the audio-transcriptions endpoint: `ok`, the
error body text, and the `text` field of the JSON body (`none` = absent). -/
structure WhisperResp where
  ok : Bool
  text : String
  textField : Option String
  deriving Repr, DecidableEq

/-- Result record of `transcrireAudio` (`TranscriptionResult`). -/
structure TranscriptionResult where
  text : String
  success : Bool
  error : Option String
  deriving Repr, DecidableEq

/-- Model of `transcrireAudio`: one provider call, no retry; counts calls. -/
def transcrireAudio (apiKey : Option String) (resp : WhisperResp) : TranscriptionResult × ℕ :=
  match apiKey with
  | none => ({ text := "", success := false, error := some "Clé API OpenRouter non configurée" }, 0)
  | some _ =>
    if resp.ok then ({ text := resp.textField.getD "", success := true, error := none }, 1)
    else ({ text := "", success := false, error := some ("Erreur transcription: " ++ resp.text) }, 1)

/-- JSON response of the transcription branch of the `POST` handler. -/
inductive TranscribeOutcome where
  | success (transcription : String)
  | failure (status : ℕ) (error : String)
  deriving Repr, DecidableEq

/-- The orchestrator transcription branch (route.ts lines 41–89), given the
responses the two possible `fetch` calls would receive: call Whisper with
the JSON body; on a non-success response, retry once with the `FormData`
format; only a failure of that second call is returned as an error.  The
second component counts provider calls actually made. -/
def transcriptionBranch (resp1 resp2 : WhisperResp) : TranscribeOutcome × ℕ :=
  if resp1.ok then
    (TranscribeOutcome.success (resp1.textField.getD ""), 1)
  else if resp2.ok then
    (TranscribeOutcome.success (resp2.textField.getD ""), 2)
  else
    (TranscribeOutcome.failure 500 ("Erreur Whisper: " ++ resp2.text), 2)

/-- C6 counterexample — on the reply `"{a}"` the located JSON substring
fails to parse; the result is a failure but `rawResponse` is *not*
preserved, contradicting the claim that a parse failure preserves the raw
model text in `rawResponse`. -/
theorem extraction_parse_failure_drops_raw :
    (processExtraction "{a}").success = false
    ∧ (processExtraction "{a}").rawResponse = none
    ∧ ¬(processExtraction "{a}").rawResponse = some "{a}" := by decide

/-- C6 (amended) — a model reply with no JSON object substring yields a
failure result that preserves the raw text in `rawResponse`; a reply whose
located JSON substring fails to parse also yields a failure result, but the
catch path returns it without `rawResponse`. -/
theorem extraction_failure_result_spec (content : String) :
    (jsonMatchStr content = none →
      processExtraction content
        = { numDossier := "", montantHT := 0, prestation := "", success := false
            error := some "Format de réponse invalide", rawResponse := some content })
    ∧ (∀ js, jsonMatchStr content = some js → jsonParse js = none →
        (processExtraction content).success = false
        ∧ (processExtraction content).rawResponse = none) := by
  constructor
  · intro h
    simp [processExtraction, h]
  · intro js h hp
    simp [processExtraction, h, hp]

/-- Witness for C6 (amended): a brace-free reply keeps its raw text; the
reply `"{a}"` fails without it. -/
theorem extraction_failure_result_spec_witness :
    processExtraction "pas de json"
      = { numDossier := "", montantHT := 0, prestation := "", success := false
          error := some "Format de réponse invalide", rawResponse := some "pas de json" }
    ∧ ((processExtraction "{a}").success = false
        ∧ (processExtraction "{a}").rawResponse = none) :=
  ⟨(extraction_failure_result_spec "pas de json").1 (by decide),
   (extraction_failure_result_spec "{a}").2 "{a}" (by decide) rfl⟩

/-- C10 — when the located JSON substring parses to an object lacking
any of the three expected fields, `extraireInfosFacture` still reports
`success = true` (with the raw text kept), defaulting `numDossier` to `""`,
`montantHT` to `0` and `prestation` to `""`. -/
theorem extraction_missing_fields_default_spec (content js : String)
    (o : List (String × JVal))
    (hm : jsonMatchStr content = some js) (hp : jsonParse js = some (JVal.jobj o)) :
    (processExtraction content).success = true
    ∧ (processExtraction content).rawResponse = some content
    ∧ (jGet o "numDossier" = none → (processExtraction content).numDossier = "")
    ∧ (jGet o "montantHT" = none → (processExtraction content).montantHT = 0)
    ∧ (jGet o "prestation" = none → (processExtraction content).prestation = "") := by
  simp only [processExtraction, hm, hp]
  refine ⟨trivial, trivial, ?_, ?_, ?_⟩ <;> intro h <;>
    simp [jfield, h, jsOrElse, jsTruthy, jsNumber, jsOrZero, jsStringWith, jsStringF, jsTrim,
      jsToUpper, trimList, jsWhitespace]

/-- Witness for C10: the reply `"{}"` parses to the empty object and still
succeeds, with all three fields defaulted. -/
theorem extraction_missing_fields_default_spec_witness :
    (processExtraction "{}").success = true
    ∧ (processExtraction "{}").rawResponse = some "{}"
    ∧ (processExtraction "{}").numDossier = ""
    ∧ (processExtraction "{}").montantHT = 0
    ∧ (processExtraction "{}").prestation = "" := by
  have h := extraction_missing_fields_default_spec "{}" "{}" [] (by decide) rfl
  exact ⟨h.1, h.2.1, h.2.2.1 rfl, h.2.2.2.1 rfl, h.2.2.2.2 rfl⟩

/-- C7 counterexample — with a non-success first speech-to-text
response, the orchestrator transcription branch makes a *second* provider
call (the FormData fallback) instead of surfacing the failure immediately:
two calls are made and the request even succeeds overall. -/
theorem transcription_fallback_second_attempt :
    (transcriptionBranch ⟨false, "boom", none⟩ ⟨true, "", some "hello"⟩).2 = 2
    ∧ (transcriptionBranch ⟨false, "boom", none⟩ ⟨true, "", some "hello"⟩).1
        = TranscribeOutcome.success "hello" := by decide

/-- C7 (amended) — `transcrireAudio` and `extraireInfosFacture` each
make at most one provider call and surface a non-success response
immediately as a failure result; the orchestrator transcription branch,
however, makes exactly one fallback second attempt (in a different request
format) when the first response is non-success — two calls, no backoff —
and surfaces a failure only when that second call also fails. -/
theorem provider_call_retry_spec :
    (∀ r1 r2 : WhisperResp, (transcriptionBranch r1 r2).2 = if r1.ok then 1 else 2)
    ∧ (∀ r1 r2 : WhisperResp, r1.ok = false → r2.ok = false →
        (transcriptionBranch r1 r2).1
          = TranscribeOutcome.failure 500 ("Erreur Whisper: " ++ r2.text))
    ∧ (∀ (k : Option String) (r : WhisperResp),
        (transcrireAudio k r).2 ≤ 1
        ∧ (r.ok = false → ((transcrireAudio k r).1).success = false))
    ∧ (∀ (k : Option String) (r : ChatResp),
        (extraireInfosFacture k r).2 ≤ 1
        ∧ (r.ok = false → ((extraireInfosFacture k r).1).success = false)) := by
  refine ⟨?_, ?_, ?_, ?_⟩
  · intro r1 r2
    by_cases h1 : r1.ok <;> by_cases h2 : r2.ok <;> simp [transcriptionBranch, h1, h2]
  · intro r1 r2 h1 h2
    simp [transcriptionBranch, h1, h2]
  · intro k r
    cases k with
    | none => simp [transcrireAudio]
    | some k => by_cases h : r.ok <;> simp [transcrireAudio, h]
  · intro k r
    cases k with
    | none => simp [extraireInfosFacture]
    | some k => by_cases h : r.ok <;> simp [extraireInfosFacture, h]

/-- Witness for C7 (amended), at concrete failing responses. -/
theorem provider_call_retry_spec_witness :
    (transcriptionBranch ⟨false, "e1", none⟩ ⟨false, "e2", none⟩).2 = 2
    ∧ (transcriptionBranch ⟨false, "e1", none⟩ ⟨false, "e2", none⟩).1
        = TranscribeOutcome.failure 500 ("Erreur Whisper: " ++ "e2")
    ∧ ((transcrireAudio (some "k") ⟨false, "e", none⟩).2 ≤ 1
        ∧ ((transcrireAudio (some "k") ⟨false, "e", none⟩).1).success = false)
    ∧ ((extraireInfosFacture (some "k") ⟨false, "e", none⟩).2 ≤ 1
        ∧ ((extraireInfosFacture (some "k") ⟨false, "e", none⟩).1).success = false) :=
  ⟨provider_call_retry_spec.1 ⟨false, "e1", none⟩ ⟨false, "e2", none⟩,
   provider_call_retry_spec.2.1 ⟨false, "e1", none⟩ ⟨false, "e2", none⟩ rfl rfl,
   ⟨(provider_call_retry_spec.2.2.1 (some "k") ⟨false, "e", none⟩).1,
    (provider_call_retry_spec.2.2.1 (some "k") ⟨false, "e", none⟩).2 rfl⟩,
   ⟨(provider_call_retry_spec.2.2.2 (some "k") ⟨false, "e", none⟩).1,
    (provider_call_retry_spec.2.2.2 (some "k") ⟨false, "e", none⟩).2 rfl⟩⟩

/-! ## Invoice creation orchestrator (`POST`, route.ts lines 93–216)

The Prisma client table and the Stripe adapter are modelled as explicit
inputs: a list of `Client` rows (looked up by the unique `numDossier` key)
and the result the `creerLienPaiement` call would return.  Each action
becomes a pure function from those inputs and the request body to the JSON
response, the new sequence-store state and the list of invoice rows
persisted by the request. -/

/-- A `Client` row (fields not read by the handler are omitted from the
model except `raisonSociale`, which is passed to the payment adapter). -/
structure Client where
  id : String
  numDossier : String
  raisonSociale : String
  deriving Repr, DecidableEq

/-- Model of `prisma.client.findUnique` on the `numDossier` key; the column
is unique, so first match is the match. -/
def findClient (db : List Client) (key : String) : Option Client :=
  db.find? (fun c => c.numDossier == key)

/-- Result of `creerLienPaiement` (the Stripe adapter, an external
collaborator): a success flag and optional `url` / `paymentLinkId`. -/
structure StripeResult where
  success : Bool
  url : Option String
  paymentLinkId : Option String
  deriving Repr, DecidableEq

/-- JSON body of a create request.  `none` models an absent field;
`genererStripe` defaults to `true` by destructuring. -/
structure CreateBody where
  numDossier : Option String
  montantHT : Option ℚ
  prestation : Option String
  genererStripe : Option Bool
  deriving Repr, DecidableEq

/-- JS truthiness of the optional string field (absent or `""` is falsy). -/
def jsTruthyStr : Option String → Bool
  | none => false
  | some s => !(s == "")

/-- JS truthiness of the optional number field (absent or `0` is falsy). -/
def jsTruthyNum : Option ℚ → Bool
  | none => false
  | some q => !(q == 0)

/-- A persisted `Facture` row. -/
structure Facture where
  numeroSequentiel : ℕ
  prefixe : String
  numeroComplet : String
  prestation : String
  montantHT : ℚ
  tauxTVA : ℚ
  montantTVA : ℚ
  montantTTC : ℚ
  stripePaymentLink : Option String
  stripePaymentId : Option String
  clientId : String
  deriving Repr, DecidableEq

/-- JSON response of the create action. -/
inductive CreateOutcome where
  | error (status : ℕ) (msg : String)
  | success (facture : Facture)
  deriving Repr, DecidableEq

/-- The create action (route.ts lines 131–203): validate the three fields
as truthy, look the client up by the upper-cased and trimmed `numDossier`,
compute amounts, allocate the next invoice number, optionally consult the
Stripe adapter (a failure there leaves both links `null`), and persist the
invoice row. -/
def createAction (db : List Client) (anneeEnCours : ℕ) (seqState : Option Sequence)
    (stripeKey : Option String) (stripeResult : StripeResult) (body : CreateBody) :
    CreateOutcome × Option Sequence × List Facture :=
  if jsTruthyStr body.numDossier && jsTruthyNum body.montantHT && jsTruthyStr body.prestation then
    let numDossier := body.numDossier.getD ""
    let montantHT := body.montantHT.getD 0
    let prestation := body.prestation.getD ""
    let genererStripe := body.genererStripe.getD true
    match findClient db (jsTrim (jsToUpper numDossier)) with
    | none =>
      (CreateOutcome.error 404 ("Dossier " ++ numDossier ++ " non trouvé dans la base"),
       seqState, [])
    | some client =>
      let montants := calculerMontants montantHT 20
      let allocated := getNextFactureNumber anneeEnCours seqState
      let stripeFields : Option String × Option String :=
        if genererStripe && stripeKey.isSome then
          if stripeResult.success then (stripeResult.url, stripeResult.paymentLinkId)
          else (none, none)
        else (none, none)
      let facture : Facture :=
        { numeroSequentiel := allocated.1.numeroSequentiel
          prefixe := allocated.1.prefixe
          numeroComplet := allocated.1.numeroComplet
          prestation := prestation
          montantHT := montants.montantHT
          tauxTVA := montants.tauxTVA
          montantTVA := montants.montantTVA
          montantTTC := montants.montantTTC
          stripePaymentLink := stripeFields.1
          stripePaymentId := stripeFields.2
          clientId := client.id }
      (CreateOutcome.success facture, allocated.2, [facture])
  else
    (CreateOutcome.error 400 "Données incomplètes: numDossier, montantHT et prestation requis",
     seqState, [])

/-- JSON response of the extract action. -/
structure ExtractResponse where
  success : Bool
  clientTrouve : Bool
  client : Option Client
  error : Option String
  deriving Repr, DecidableEq

/-- The extract action (route.ts lines 105–127), after the extraction
adapter returned `extraction`: when the extraction succeeded and produced a
truthy `numDossier`, look the dossier up and report whether it was found;
otherwise fall through, echoing `extraction.success` and its error. -/
def extractAction (db : List Client) (extraction : ExtractionResult) : ExtractResponse :=
  if extraction.success && !(extraction.numDossier == "") then
    let client := findClient db extraction.numDossier
    { success := true, clientTrouve := client.isSome, client := client, error := none }
  else
    { success := extraction.success, clientTrouve := false, client := none
      error := extraction.error }

/-- C2 — a create request with a missing or falsy `numDossier`,
`montantHT` (including `0`) or `prestation` fails with the 400 validation
error; a request whose normalized `numDossier` matches no client fails
with the 404 not-found error; in both cases the sequence store is left
unchanged (no number issued) and no invoice row is persisted. -/
theorem create_validation_spec (db : List Client) (annee : ℕ) (seq : Option Sequence)
    (key : Option String) (sres : StripeResult) (body : CreateBody) :
    ((jsTruthyStr body.numDossier = false ∨ jsTruthyNum body.montantHT = false
        ∨ jsTruthyStr body.prestation = false) →
      createAction db annee seq key sres body
        = (CreateOutcome.error 400 "Données incomplètes: numDossier, montantHT et prestation requis",
           seq, []))
    ∧ (∀ s, body.numDossier = some s →
        jsTruthyStr body.numDossier = true → jsTruthyNum body.montantHT = true →
        jsTruthyStr body.prestation = true →
        findClient db (jsTrim (jsToUpper s)) = none →
        createAction db annee seq key sres body
          = (CreateOutcome.error 404 ("Dossier " ++ s ++ " non trouvé dans la base"),
             seq, [])) := by
  constructor
  · intro h
    have hc : (jsTruthyStr body.numDossier && jsTruthyNum body.montantHT
        && jsTruthyStr body.prestation) = false := by
      rcases h with h | h | h <;> simp [h]
    simp [createAction, hc]
  · intro s hs h1 h2 h3 hf
    rw [hs] at h1
    simp [createAction, hs, h1, h2, h3, hf]

/-- Witness for C2: a body with `montantHT = 0` is rejected 400; a truthy
body for the unknown dossier `"ZZ9"` is rejected 404; neither changes the
store or persists a row. -/
theorem create_validation_spec_witness :
    createAction [] 2026 none none ⟨true, none, none⟩
        ⟨some "AM0028", some 0, some "conseil", none⟩
      = (CreateOutcome.error 400 "Données incomplètes: numDossier, montantHT et prestation requis",
         none, [])
    ∧ createAction [] 2026 none none ⟨true, none, none⟩
        ⟨some "ZZ9", some 50, some "conseil", none⟩
      = (CreateOutcome.error 404 ("Dossier " ++ "ZZ9" ++ " non trouvé dans la base"),
         none, []) :=
  ⟨(create_validation_spec [] 2026 none none ⟨true, none, none⟩
      ⟨some "AM0028", some 0, some "conseil", none⟩).1 (Or.inr (Or.inl (by decide))),
   (create_validation_spec [] 2026 none none ⟨true, none, none⟩
      ⟨some "ZZ9", some 50, some "conseil", none⟩).2 "ZZ9" rfl (by decide) (by decide)
      (by decide) (by decide)⟩

/-- C5 — for a create request for a known client, when the Stripe adapter
call returns a failure result, invoice creation still succeeds: the row is
persisted, the sequence number is allocated, and both `stripePaymentLink`
and `stripePaymentId` are `null` on the returned invoice. -/
theorem create_stripe_failure_nonfatal (db : List Client) (annee : ℕ) (seq : Option Sequence)
    (k : String) (sres : StripeResult) (body : CreateBody) (s : String) (c : Client) :
    body.numDossier = some s →
    jsTruthyStr body.numDossier = true → jsTruthyNum body.montantHT = true →
    jsTruthyStr body.prestation = true →
    findClient db (jsTrim (jsToUpper s)) = some c →
    sres.success = false →
    ∃ f : Facture,
      createAction db annee seq (some k) sres body
        = (CreateOutcome.success f, (getNextFactureNumber annee seq).2, [f])
      ∧ f.stripePaymentLink = none ∧ f.stripePaymentId = none ∧ f.clientId = c.id := by
  intro hs h1 h2 h3 hf hfail
  rw [hs] at h1
  simp [createAction, hs, h1, h2, h3, hf, hfail]

/-- Witness for C5: a failed Stripe call on a valid request for the stored
client `"AM0028"` still yields a created invoice with both links `null`. -/
theorem create_stripe_failure_nonfatal_witness :
    ∃ f : Facture,
      createAction [Client.mk "c1" "AM0028" "ACME"] 2026 none (some "sk") ⟨false, none, none⟩
          ⟨some "AM0028", some 50, some "conseil", none⟩
        = (CreateOutcome.success f, (getNextFactureNumber 2026 none).2, [f])
      ∧ f.stripePaymentLink = none ∧ f.stripePaymentId = none
      ∧ f.clientId = (Client.mk "c1" "AM0028" "ACME").id :=
  create_stripe_failure_nonfatal [Client.mk "c1" "AM0028" "ACME"] 2026 none "sk"
    ⟨false, none, none⟩ ⟨some "AM0028", some 50, some "conseil", none⟩ "AM0028"
    (Client.mk "c1" "AM0028" "ACME") rfl (by decide) (by decide) (by decide) (by decide) rfl

/-- C8 — for an extract action whose extraction step succeeded, the
response reports success, returns the Client Directory lookup of the
extracted `numDossier`, and `clientTrouve` states whether a match was
found; absence of a match is not an error.  (The hypothesis that no client
row carries an empty `numDossier` covers the handler guard that skips the
lookup for an empty extracted reference.) -/
theorem extract_action_lookup_spec (db : List Client) (e : ExtractionResult)
    (hs : e.success = true) (hempty : findClient db "" = none) :
    (extractAction db e).success = true
    ∧ (extractAction db e).client = findClient db e.numDossier
    ∧ (extractAction db e).clientTrouve = (findClient db e.numDossier).isSome := by
  by_cases h : e.numDossier = ""
  · simp [extractAction, hs, h, hempty.symm]
  · simp [extractAction, hs, h]

/-- Witness for C8: a successful extraction of `"AM0028"` against a
directory holding that dossier, and of `"ZZ9"` against the same directory
(no match, still success). -/
theorem extract_action_lookup_spec_witness :
    ((extractAction [Client.mk "c1" "AM0028" "ACME"] ⟨"AM0028", 0, "", true, none, none⟩).success
        = true
      ∧ (extractAction [Client.mk "c1" "AM0028" "ACME"] ⟨"AM0028", 0, "", true, none, none⟩).client
        = findClient [Client.mk "c1" "AM0028" "ACME"] "AM0028"
      ∧ (extractAction [Client.mk "c1" "AM0028" "ACME"]
            ⟨"AM0028", 0, "", true, none, none⟩).clientTrouve
        = (findClient [Client.mk "c1" "AM0028" "ACME"] "AM0028").isSome)
    ∧ ((extractAction [Client.mk "c1" "AM0028" "ACME"] ⟨"ZZ9", 0, "", true, none, none⟩).success
        = true) :=
  ⟨extract_action_lookup_spec [Client.mk "c1" "AM0028" "ACME"]
      ⟨"AM0028", 0, "", true, none, none⟩ rfl (by decide),
   (extract_action_lookup_spec [Client.mk "c1" "AM0028" "ACME"]
      ⟨"ZZ9", 0, "", true, none, none⟩ rfl (by decide)).1⟩

/-- C9 — the create path looks clients up by the upper-cased and trimmed
`numDossier` (so `" am0028 "` matches a stored `"AM0028"`), and the
extraction adapter applies the same normalization (upper-case then trim) to
the extracted `caseRef`. -/
theorem numDossier_normalization_spec :
    jsTrim (jsToUpper " am0028 ") = "AM0028"
    ∧ (∀ db annee seq key sres (body : CreateBody) s,
        body.numDossier = some s →
        jsTruthyStr body.numDossier = true → jsTruthyNum body.montantHT = true →
        jsTruthyStr body.prestation = true →
        (∀ c, findClient db (jsTrim (jsToUpper s)) = some c →
          ∃ f, (createAction db annee seq key sres body).1 = CreateOutcome.success f
            ∧ f.clientId = c.id)
        ∧ (findClient db (jsTrim (jsToUpper s)) = none →
          (createAction db annee seq key sres body).1
            = CreateOutcome.error 404 ("Dossier " ++ s ++ " non trouvé dans la base")))
    ∧ (∀ content js (parsed : JVal), jsonMatchStr content = some js →
        jsonParse js = some parsed →
        (processExtraction content).numDossier
          = jsTrim (jsToUpper (jsStringWith js.length
              (jsOrElse (jfield parsed "numDossier") (JVal.jstr ""))))) := by
  refine ⟨by decide, ?_, ?_⟩
  · intro db annee seq key sres body s hs h1 h2 h3
    rw [hs] at h1
    constructor
    · intro c hf
      simp [createAction, hs, h1, h2, h3, hf]
    · intro hf
      simp [createAction, hs, h1, h2, h3, hf]
  · intro content js parsed hm hp
    simp [processExtraction, hm, hp]

/-- Witness for C9: creating with `numDossier = " am0028 "` against a
directory storing `"AM0028"` finds the client, and the `"{}"` reply shows
the extraction-side normalization expression. -/
theorem numDossier_normalization_spec_witness :
    jsTrim (jsToUpper " am0028 ") = "AM0028"
    ∧ (∃ f, (createAction [Client.mk "c1" "AM0028" "ACME"] 2026 none none ⟨true, none, none⟩
          ⟨some " am0028 ", some 50, some "conseil", none⟩).1 = CreateOutcome.success f
        ∧ f.clientId = (Client.mk "c1" "AM0028" "ACME").id)
    ∧ (processExtraction "{}").numDossier
        = jsTrim (jsToUpper (jsStringWith ("{}" : String).length
            (jsOrElse (jfield (JVal.jobj []) "numDossier") (JVal.jstr "")))) :=
  ⟨numDossier_normalization_spec.1,
   (numDossier_normalization_spec.2.1 [Client.mk "c1" "AM0028" "ACME"] 2026 none none
      ⟨true, none, none⟩ ⟨some " am0028 ", some 50, some "conseil", none⟩ " am0028 "
      rfl (by decide) (by decide) (by decide)).1
      (Client.mk "c1" "AM0028" "ACME") (by decide),
   numDossier_normalization_spec.2.2 "{}" "{}" (JVal.jobj []) (by decide) rfl⟩

end SmartCompta
